import Mathlib

/-!
Shallow embedding of the repository `kirill-push/covalent` (excerpt):
the Dask executor plugin `covalent/executor/executor_plugins/dask.py`
and the post-processing behaviour exercised by
`tests/covalent_dispatcher_tests/_core/execution_test.py`.

Python state is made explicit: the executor instance attributes, the
process-wide address-to-client cache `_address_client_mapper`, the
stdout/stderr sinks and the recorded job handle are carried in a state
record; `run` and `cancel` are state transformers that also emit an
event trace recording submission, job-handle registration and the await
of the backend future.  Clients are identified by the order of their
creation (a fresh natural number per `Client(...)` call).
-/

namespace Covalent

/-- Python's `os.path.join` restricted to two components: an absolute second
component replaces the first, otherwise the parts are joined with a single
separator. -/
def osPathJoin (a b : String) : String :=
  if b.data.head? = some '/' then b
  else if a = "" then b
  else if a.data.getLast? = some '/' then a ++ b
  else a ++ "/" ++ b

/-- The process environment variables consulted by `_EXECUTOR_PLUGIN_DEFAULTS`. -/
structure Env where
  xdg_cache_home : Option String
  home : String
  deriving DecidableEq, Repr

/-- `os.environ.get("XDG_CACHE_HOME") or os.path.join(os.environ["HOME"], ".cache")`:
Python `or` falls through on an unset or empty variable. -/
def cacheRoot (e : Env) : String :=
  match e.xdg_cache_home with
  | some s => if s = "" then osPathJoin e.home ".cache" else s
  | none => osPathJoin e.home ".cache"

/-- `_EXECUTOR_PLUGIN_DEFAULTS["cache_dir"]`. -/
def default_cache_dir (e : Env) : String :=
  osPathJoin (cacheRoot e) "covalent"

/-- `_EXECUTOR_PLUGIN_DEFAULTS["workdir"]`. -/
def default_workdir (e : Env) : String :=
  osPathJoin (osPathJoin (cacheRoot e) "covalent") "workdir"

/-- `_EXECUTOR_PLUGIN_DEFAULTS["create_unique_workdir"]`. -/
def default_create_unique_workdir : Bool := false

/-- The persisted configuration store read through `get_config`; a `none`
field models a `KeyError` on lookup.  The `executors.dask.cache_dir` key is
included so that configurations containing it can be expressed. -/
structure Config where
  executors_dask_workdir : Option String
  executors_dask_create_unique_workdir : Option Bool
  executors_dask_cache_dir : Option String
  dask_scheduler_address : Option String
  deriving DecidableEq, Repr

/-- The constructor arguments of `DaskExecutor.__init__` that the model
tracks; Python's defaults are the empty string and `None`. -/
structure InitArgs where
  scheduler_address : String
  cache_dir : String
  workdir : String
  create_unique_workdir : Option Bool
  deriving DecidableEq, Repr

/-- The executor instance attributes set by `DaskExecutor.__init__`. -/
structure DaskExecutor where
  scheduler_address : String
  cache_dir : String
  workdir : String
  create_unique_workdir : Bool
  deriving DecidableEq, Repr

/-- `DaskExecutor.__init__`: resolves `cache_dir` (empty argument falls back
directly to the plugin default), `workdir` and `create_unique_workdir`
(empty/`None` argument falls back to the configuration, and on `KeyError`
to the plugin default), then stores the attributes. -/
def DaskExecutor.init (a : InitArgs) (cfg : Config) (e : Env) : DaskExecutor :=
  let cache_dir := if a.cache_dir = "" then default_cache_dir e else a.cache_dir
  let workdir :=
    if a.workdir = "" then
      match cfg.executors_dask_workdir with
      | some w => w
      | none => default_workdir e
    else a.workdir
  let create_unique_workdir :=
    match a.create_unique_workdir with
    | some b => b
    | none =>
      match cfg.executors_dask_create_unique_workdir with
      | some b => b
      | none => default_create_unique_workdir
  { scheduler_address := a.scheduler_address
    cache_dir := cache_dir
    workdir := workdir
    create_unique_workdir := create_unique_workdir }

/-- The `task_metadata` dictionary fields read by `run`. -/
structure TaskMetadata where
  dispatch_id : String
  node_id : Nat
  deriving DecidableEq, Repr

/-- The mutable state visible to `run` and `cancel`: the executor instance,
the process-wide `_address_client_mapper` (an association list from scheduler
address to client identifier, together with the next fresh client id), the
task stdout/stderr sinks and the job handle recorded via `set_job_handle`. -/
structure ProcState where
  executor : DaskExecutor
  mapper : List (String × Nat)
  nextClient : Nat
  task_stdout : String
  task_stderr : String
  job_handle : Option String
  deriving DecidableEq, Repr

/-- Observable events emitted in order by `run` and `cancel`. -/
inductive Event where
  | checkCancelRequested : Event
  | clientCreated (addr : String) : Event
  | submit (client : Nat) (workdir : String) : Event
  | setJobHandle (key : String) : Event
  | awaitFuture : Event
  | futureCancelRequest (client : Nat) (key : String) : Event
  deriving DecidableEq, Repr

/-- The client lookup/creation block shared verbatim by `run` (lines 126-131)
and `cancel` (lines 168-173): `_address_client_mapper.get(address)`, and on a
miss `Client(...)` followed by `_address_client_mapper[address] = client`.
Returns the client used, the updated mapper, the updated fresh-id counter and
the emitted events. -/
def getOrCreateClient (mapper : List (String × Nat)) (nextClient : Nat)
    (addr : String) : Nat × List (String × Nat) × Nat × List Event :=
  match mapper.lookup addr with
  | some c => (c, mapper, nextClient, [])
  | none => (nextClient, (addr, nextClient) :: mapper, nextClient + 1,
      [Event.clientCreated addr])

/-- Lines 111-117 of `run`: when `self.scheduler_address` is empty, read
`dask.scheduler_address` from the configuration; a `KeyError` leaves the
attribute unchanged. -/
def resolveSchedulerAddress (x : DaskExecutor) (cfg : Config) : DaskExecutor :=
  if x.scheduler_address = "" then
    match cfg.dask_scheduler_address with
    | some a => { x with scheduler_address := a }
    | none => x
  else x

/-- Lines 133-136 of `run`: the working directory passed to the wrapper. -/
def currentWorkdir (x : DaskExecutor) (md : TaskMetadata) : String :=
  if x.create_unique_workdir then
    osPathJoin (osPathJoin x.workdir md.dispatch_id)
      ("node_" ++ toString md.node_id)
  else x.workdir

/-- What awaiting the dask future yields: either the backend's
`CancelledError`, or the wrapper's 4-tuple
`(result, worker_stdout, worker_stderr, tb)`. -/
inductive FutureOutcome (α : Type) where
  | cancelled : FutureOutcome α
  | completed (result : α) (worker_stdout worker_stderr tb : String) :
      FutureOutcome α
  deriving DecidableEq, Repr

/-- The typed failures `run` can raise. -/
inductive RunError where
  | taskCancelled : RunError
  | taskRuntime (tb : String) : RunError
  deriving DecidableEq, Repr

/-- `DaskExecutor.run`.  The environment of one invocation is passed
explicitly: the configuration, the value of `get_cancel_requested`, the task
metadata, the key dask assigns to the submitted future, and the outcome of
awaiting that future.  Returns the run's result (`Except` models raising),
the post-state and the event trace. -/
def DaskExecutor.run {α : Type} (st : ProcState) (cfg : Config)
    (cancelRequested : Bool) (md : TaskMetadata) (futureKey : String)
    (outcome : FutureOutcome α) :
    Except RunError α × ProcState × List Event :=
  let x := resolveSchedulerAddress st.executor cfg
  let st1 : ProcState := { st with executor := x }
  if cancelRequested then
    (Except.error RunError.taskCancelled, st1, [Event.checkCancelRequested])
  else
    let gc := getOrCreateClient st1.mapper st1.nextClient x.scheduler_address
    let client := gc.1
    let st2 : ProcState := { st1 with mapper := gc.2.1, nextClient := gc.2.2.1 }
    let cw := currentWorkdir x md
    let st3 : ProcState := { st2 with job_handle := some futureKey }
    let tr := Event.checkCancelRequested :: gc.2.2.2 ++
      [Event.submit client cw, Event.setJobHandle futureKey, Event.awaitFuture]
    match outcome with
    | FutureOutcome.cancelled =>
        (Except.error RunError.taskCancelled, st3, tr)
    | FutureOutcome.completed result worker_stdout worker_stderr tb =>
        let st4 : ProcState := { st3 with
          task_stdout := st3.task_stdout ++ worker_stdout,
          task_stderr := st3.task_stderr ++ worker_stderr }
        if tb ≠ "" then
          (Except.error (RunError.taskRuntime tb),
            { st4 with task_stderr := st4.task_stderr ++ tb }, tr)
        else
          (Except.ok result, st4, tr)

/-- `DaskExecutor.cancel`: looks up or creates the client for the current
scheduler address, requests cancellation of the future reconstructed from the
job handle, and returns `True`. -/
def DaskExecutor.cancel (st : ProcState) (_md : TaskMetadata)
    (job_handle : String) : Bool × ProcState × List Event :=
  let gc := getOrCreateClient st.mapper st.nextClient
    st.executor.scheduler_address
  let client := gc.1
  let st1 : ProcState := { st with mapper := gc.2.1, nextClient := gc.2.2.1 }
  (true, st1, gc.2.2.2 ++ [Event.futureCancelRequest client job_handle])

/-- Well-formedness of the process-wide client cache: addresses are pairwise
distinct, client identifiers are pairwise distinct, and every stored client
identifier is below the fresh-id counter. -/
def mapperWf (m : List (String × Nat)) (next : Nat) : Prop :=
  (m.map Prod.fst).Nodup ∧ (m.map Prod.snd).Nodup ∧ ∀ p ∈ m, p.2 < next

instance (m : List (String × Nat)) (next : Nat) :
    Decidable (mapperWf m next) := by
  unfold mapperWf; infer_instance

/-! ### Post-processing (spec-modelled)

The module `covalent_dispatcher._core.execution` is referenced only by the
test file; its code is not part of the excerpt, so `_post_process` is
modelled from the spec below. -/

/-- A Python value as far as the post-processing example needs: integers and
pairs (2-tuples). -/
inductive PyVal where
  | int (n : Int) : PyVal
  | pair (a b : PyVal) : PyVal
  deriving DecidableEq, Repr

/-- Modelled from the spec: node identifiers of the form
`:parameter:<value>(<index>)` and `:generated:<fn>()[<i>](<index>)` start
with a colon; an electron (task-call) node identifier is
`<function_name>(<index>)`. -/
def isElectronNode (name : String) : Bool :=
  match name.data with
  | ':' :: _ => false
  | _ => true

/-- Modelled from the spec: the replay cursor over the topological order.
Advances past parameter and generated nodes to the next electron node and
consumes its output; post-processing fails (`none`) when the referenced
node's output is absent rather than substituting a placeholder. -/
def consumeElectron (outputs : List (String × PyVal)) :
    List String → Option (PyVal × List String)
  | [] => none
  | n :: rest =>
    if isElectronNode n then
      match outputs.lookup n with
      | some v => some (v, rest)
      | none => none
    else consumeElectron outputs rest

/-- Modelled from the spec: replay of the lattice
`p(x): result, b = a(x=x); for _ in range(1): result, b = a(x=result);
return b, result` against precomputed node outputs in topological order.
Each textual call of the electron `a` consumes the output of the next
electron node under the cursor; tuple unpacking takes the components of the
substituted pair. -/
def postProcess_p (order : List String) (outputs : List (String × PyVal))
    (_x : Int) : Option PyVal := do
  let s1 ← consumeElectron outputs order
  match s1.1 with
  | PyVal.pair _result _b =>
    let s2 ← consumeElectron outputs s1.2
    match s2.1 with
    | PyVal.pair result b => some (PyVal.pair b result)
    | PyVal.int _ => none
  | PyVal.int _ => none

/-- The topological order `p.transport_graph.get_topologically_sorted_graph()`
from the test. -/
def testOrder : List String :=
  ["a(0)", ":parameter:2(1)", ":generated:a()[0](2)", ":generated:a()[1](3)",
   "a(4)", ":generated:a()[0](5)", ":generated:a()[1](6)"]

/-- The `node_outputs` map from the test. -/
def testNodeOutputs : List (String × PyVal) :=
  [("a(0)", PyVal.pair (PyVal.int 2) (PyVal.int 4)),
   (":parameter:2(1)", PyVal.int 2),
   (":generated:a()[0](2)", PyVal.int 2),
   (":generated:a()[1](3)", PyVal.int 4),
   ("a(4)", PyVal.pair (PyVal.int 2) (PyVal.int 4)),
   (":generated:a()[0](5)", PyVal.int 2),
   (":generated:a()[1](6)", PyVal.int 4)]

/-! ### Concrete instances used by witnesses and counterexamples -/

def cfg0 : Config :=
  { executors_dask_workdir := none
    executors_dask_create_unique_workdir := none
    executors_dask_cache_dir := none
    dask_scheduler_address := some "tcp://sched:8786" }

def exec0 : DaskExecutor :=
  { scheduler_address := "tcp://sched:8786", cache_dir := "/cache",
    workdir := "/work", create_unique_workdir := false }

def st0 : ProcState :=
  { executor := exec0, mapper := [], nextClient := 0,
    task_stdout := "", task_stderr := "", job_handle := none }

def md0 : TaskMetadata := { dispatch_id := "dispatch-1", node_id := 3 }

def exec1 : DaskExecutor :=
  { scheduler_address := "tcp://sched:8786", cache_dir := "/cache",
    workdir := "/work", create_unique_workdir := true }

def st1 : ProcState :=
  { executor := exec1, mapper := [], nextClient := 0,
    task_stdout := "", task_stderr := "", job_handle := none }

def execE : DaskExecutor :=
  { scheduler_address := "", cache_dir := "/cache",
    workdir := "/work", create_unique_workdir := false }

def stE : ProcState :=
  { executor := execE, mapper := [], nextClient := 0,
    task_stdout := "", task_stderr := "", job_handle := none }

def c8_env : Env := { xdg_cache_home := some "/xdg", home := "/home/u" }

def c8_cfg : Config :=
  { executors_dask_workdir := none
    executors_dask_create_unique_workdir := none
    executors_dask_cache_dir := some "/cfg/cachedir"
    dask_scheduler_address := none }

def c8_args : InitArgs :=
  { scheduler_address := "", cache_dir := "", workdir := "",
    create_unique_workdir := none }

def c8_args2 : InitArgs :=
  { scheduler_address := "", cache_dir := "/my/cache", workdir := "",
    create_unique_workdir := none }

def c8_cfg2 : Config :=
  { executors_dask_workdir := some "/cfg/wd"
    executors_dask_create_unique_workdir := some true
    executors_dask_cache_dir := none
    dask_scheduler_address := none }

/-! ### Helper lemmas -/

theorem lookup_mem {m : List (String × Nat)} {a : String} {c : Nat}
    (h : m.lookup a = some c) : (a, c) ∈ m := by
  induction m with
  | nil => simp at h
  | cons p rest ih =>
    obtain ⟨k, v⟩ := p
    by_cases hak : a = k
    · subst hak
      simp [List.lookup_cons] at h
      simp [h]
    · have hbk : (a == k) = false := beq_eq_false_iff_ne.mpr hak
      simp only [List.lookup_cons, hbk] at h
      exact List.mem_cons_of_mem _ (ih h)

theorem lookup_cons_ne {m : List (String × Nat)} {k a : String} {v : Nat}
    (h : a ≠ k) : ((k, v) :: m).lookup a = m.lookup a := by
  have hbk : (a == k) = false := beq_eq_false_iff_ne.mpr h
  simp [List.lookup_cons, hbk]

theorem not_mem_keys_of_lookup_none {m : List (String × Nat)} {a : String}
    (h : m.lookup a = none) : ¬ a ∈ m.map Prod.fst := by
  intro hmem
  rw [List.mem_map] at hmem
  obtain ⟨p, hp, hfst⟩ := hmem
  rw [List.lookup_eq_none_iff] at h
  have hne := h p hp
  rw [bne_iff_ne] at hne
  exact hne hfst.symm

theorem getOrCreateClient_hit {m : List (String × Nat)} {next : Nat}
    {addr : String} {c : Nat} (h : m.lookup addr = some c) :
    getOrCreateClient m next addr = (c, m, next, []) := by
  simp [getOrCreateClient, h]

theorem getOrCreateClient_miss {m : List (String × Nat)} {next : Nat}
    {addr : String} (h : m.lookup addr = none) :
    getOrCreateClient m next addr
      = (next, (addr, next) :: m, next + 1, [Event.clientCreated addr]) := by
  simp [getOrCreateClient, h]

theorem getOrCreateClient_preserves_lookup {m : List (String × Nat)}
    {next : Nat} {addr a : String} {c : Nat} (h : m.lookup a = some c) :
    (getOrCreateClient m next addr).2.1.lookup a = some c := by
  cases hm : m.lookup addr with
  | some c2 => simp [getOrCreateClient, hm, h]
  | none =>
    have hak : a ≠ addr := by
      intro he
      subst he
      rw [h] at hm
      cases hm
    simp only [getOrCreateClient, hm]
    rw [lookup_cons_ne hak]
    exact h

theorem getOrCreateClient_wf {m : List (String × Nat)} {next : Nat}
    {addr : String} (h : mapperWf m next) :
    mapperWf (getOrCreateClient m next addr).2.1
      (getOrCreateClient m next addr).2.2.1 := by
  obtain ⟨hkeys, hvals, hlt⟩ := h
  cases hm : m.lookup addr with
  | some c =>
    simp only [getOrCreateClient, hm]
    exact ⟨hkeys, hvals, hlt⟩
  | none =>
    simp only [getOrCreateClient, hm, mapperWf, List.map_cons]
    refine ⟨List.nodup_cons.mpr ⟨not_mem_keys_of_lookup_none hm, hkeys⟩,
      List.nodup_cons.mpr ⟨?_, hvals⟩, ?_⟩
    · intro hmem
      rw [List.mem_map] at hmem
      obtain ⟨p, hp, hsnd⟩ := hmem
      exact absurd hsnd (Nat.ne_of_lt (hlt p hp))
    · intro p hp
      rcases List.mem_cons.mp hp with he | hm2
      · subst he
        exact Nat.lt_succ_self next
      · exact Nat.lt_succ_of_lt (hlt p hm2)

theorem lookup_inj {m : List (String × Nat)} {next : Nat}
    (h : mapperWf m next) {a b : String} {ca cb : Nat} (hab : a ≠ b)
    (ha : m.lookup a = some ca) (hb : m.lookup b = some cb) : ca ≠ cb := by
  intro he
  subst he
  have hma := lookup_mem ha
  have hmb := lookup_mem hb
  have heq := List.inj_on_of_nodup_map h.2.1 hma hmb rfl
  exact hab (congrArg Prod.fst heq)

theorem resolveSchedulerAddress_fields (x : DaskExecutor) (cfg : Config) :
    (resolveSchedulerAddress x cfg).workdir = x.workdir
    ∧ (resolveSchedulerAddress x cfg).create_unique_workdir
        = x.create_unique_workdir
    ∧ (resolveSchedulerAddress x cfg).cache_dir = x.cache_dir := by
  unfold resolveSchedulerAddress
  split
  · cases cfg.dask_scheduler_address <;> simp
  · simp

theorem run_trace {α : Type} (st : ProcState) (cfg : Config)
    (md : TaskMetadata) (key : String) (outcome : FutureOutcome α) :
    (DaskExecutor.run st cfg false md key outcome).2.2
      = Event.checkCancelRequested ::
        ((getOrCreateClient st.mapper st.nextClient
          (resolveSchedulerAddress st.executor cfg).scheduler_address).2.2.2 ++
        [Event.submit (getOrCreateClient st.mapper st.nextClient
            (resolveSchedulerAddress st.executor cfg).scheduler_address).1
          (currentWorkdir (resolveSchedulerAddress st.executor cfg) md),
         Event.setJobHandle key, Event.awaitFuture]) := by
  cases outcome with
  | cancelled => simp [DaskExecutor.run]
  | completed r so se tb =>
    by_cases htb : tb = "" <;> simp [DaskExecutor.run, htb]

theorem resolveSchedulerAddress_empty {x : DaskExecutor} {cfg : Config}
    {addr : String} (hx : x.scheduler_address = "")
    (hc : cfg.dask_scheduler_address = some addr) :
    resolveSchedulerAddress x cfg = { x with scheduler_address := addr } := by
  simp [resolveSchedulerAddress, hx, hc]

theorem resolveSchedulerAddress_nonempty {x : DaskExecutor} {cfg : Config}
    (hx : x.scheduler_address ≠ "") : resolveSchedulerAddress x cfg = x := by
  simp [resolveSchedulerAddress, hx]

theorem run_executor {α : Type} (st : ProcState) (cfg : Config) (cr : Bool)
    (md : TaskMetadata) (key : String) (outcome : FutureOutcome α) :
    (DaskExecutor.run st cfg cr md key outcome).2.1.executor
      = resolveSchedulerAddress st.executor cfg := by
  cases cr with
  | true => simp [DaskExecutor.run]
  | false =>
    cases outcome with
    | cancelled => simp [DaskExecutor.run]
    | completed r so se tb =>
      by_cases htb : tb = "" <;> simp [DaskExecutor.run, htb]

theorem run_mapper {α : Type} (st : ProcState) (cfg : Config)
    (md : TaskMetadata) (key : String) (outcome : FutureOutcome α) :
    (DaskExecutor.run st cfg false md key outcome).2.1.mapper
      = (getOrCreateClient st.mapper st.nextClient
          (resolveSchedulerAddress st.executor cfg).scheduler_address).2.1 := by
  cases outcome with
  | cancelled => simp [DaskExecutor.run]
  | completed r so se tb =>
    by_cases htb : tb = "" <;> simp [DaskExecutor.run, htb]

theorem run_nextClient {α : Type} (st : ProcState) (cfg : Config)
    (md : TaskMetadata) (key : String) (outcome : FutureOutcome α) :
    (DaskExecutor.run st cfg false md key outcome).2.1.nextClient
      = (getOrCreateClient st.mapper st.nextClient
          (resolveSchedulerAddress st.executor cfg).scheduler_address).2.2.1 := by
  cases outcome with
  | cancelled => simp [DaskExecutor.run]
  | completed r so se tb =>
    by_cases htb : tb = "" <;> simp [DaskExecutor.run, htb]

theorem cancel_mapper (st : ProcState) (md : TaskMetadata) (jh : String) :
    (DaskExecutor.cancel st md jh).2.1.mapper
      = (getOrCreateClient st.mapper st.nextClient
          st.executor.scheduler_address).2.1 :=
  rfl

theorem cancel_nextClient (st : ProcState) (md : TaskMetadata) (jh : String) :
    (DaskExecutor.cancel st md jh).2.1.nextClient
      = (getOrCreateClient st.mapper st.nextClient
          st.executor.scheduler_address).2.2.1 :=
  rfl

/-! ### Claim theorems -/

/-- Claim C1: `run` fails with `TaskCancelledError` exactly when the
cancellation flag is already set (and then before submitting anything to the
backend) or when awaiting the backend future raises the backend's
`CancelledError`; in every other execution `TaskCancelledError` is not
raised. -/
theorem C1_run_task_cancelled_iff {α : Type} (st : ProcState) (cfg : Config)
    (cancelRequested : Bool) (md : TaskMetadata) (key : String)
    (outcome : FutureOutcome α) :
    ((DaskExecutor.run st cfg cancelRequested md key outcome).1
        = Except.error RunError.taskCancelled
      ↔ cancelRequested = true ∨ outcome = FutureOutcome.cancelled)
    ∧ (cancelRequested = true →
        ∀ c w, Event.submit c w ∉
          (DaskExecutor.run st cfg cancelRequested md key outcome).2.2) := by
  cases cancelRequested with
  | true =>
    constructor
    · simp [DaskExecutor.run]
    · intro _ c w
      simp [DaskExecutor.run]
  | false =>
    constructor
    · cases outcome with
      | cancelled => simp [DaskExecutor.run]
      | completed r so se tb =>
        by_cases htb : tb = "" <;> simp [DaskExecutor.run, htb]
    · intro h
      cases h

/-- Witness for C1 at a concrete input: with the cancellation flag set, the
run fails with `TaskCancelledError`. -/
theorem C1_witness :
    (DaskExecutor.run (α := Nat) st0 cfg0 true md0 "key-1"
        (FutureOutcome.completed 7 "" "" "")).1
      = Except.error RunError.taskCancelled :=
  (C1_run_task_cancelled_iff st0 cfg0 true md0 "key-1"
      (FutureOutcome.completed 7 "" "" "")).1.mpr (Or.inl rfl)

/-- Claim C2: a non-empty traceback returned by the wrapper makes `run` raise
`TaskRuntimeError` carrying exactly that traceback; an empty traceback makes
`run` return the wrapper's result. -/
theorem C2_traceback_policy {α : Type} (st : ProcState) (cfg : Config)
    (md : TaskMetadata) (key : String) (r : α) (so se tb : String) :
    (tb ≠ "" →
      (DaskExecutor.run st cfg false md key
          (FutureOutcome.completed r so se tb)).1
        = Except.error (RunError.taskRuntime tb))
    ∧ (tb = "" →
      (DaskExecutor.run st cfg false md key
          (FutureOutcome.completed r so se tb)).1 = Except.ok r) := by
  constructor
  · intro htb
    simp [DaskExecutor.run, htb]
  · intro htb
    simp [DaskExecutor.run, htb]

/-- Witness for C2 at a concrete input: traceback `"boom"` is turned into
`TaskRuntimeError "boom"`, and an empty traceback returns the result `7`. -/
theorem C2_witness :
    ((DaskExecutor.run (α := Nat) st0 cfg0 false md0 "key-1"
          (FutureOutcome.completed 7 "o" "e" "boom")).1
        = Except.error (RunError.taskRuntime "boom"))
    ∧ ((DaskExecutor.run (α := Nat) st0 cfg0 false md0 "key-1"
          (FutureOutcome.completed 7 "o" "e" "")).1 = Except.ok 7) :=
  ⟨(C2_traceback_policy st0 cfg0 md0 "key-1" 7 "o" "e" "boom").1 (by decide),
   (C2_traceback_policy st0 cfg0 md0 "key-1" 7 "o" "e" "").2 rfl⟩

/-- Claim C4: on completion `run` appends the worker-captured stdout verbatim
to the `task_stdout` sink and the worker-captured stderr verbatim to the
`task_stderr` sink; on a failed task the traceback is additionally appended
to the `task_stderr` sink. -/
theorem C4_stream_replay {α : Type} (st : ProcState) (cfg : Config)
    (md : TaskMetadata) (key : String) (r : α) (so se tb : String) :
    (tb = "" →
      (DaskExecutor.run st cfg false md key
          (FutureOutcome.completed r so se tb)).2.1.task_stdout
        = st.task_stdout ++ so
      ∧ (DaskExecutor.run st cfg false md key
          (FutureOutcome.completed r so se tb)).2.1.task_stderr
        = st.task_stderr ++ se)
    ∧ (tb ≠ "" →
      (DaskExecutor.run st cfg false md key
          (FutureOutcome.completed r so se tb)).2.1.task_stdout
        = st.task_stdout ++ so
      ∧ (DaskExecutor.run st cfg false md key
          (FutureOutcome.completed r so se tb)).2.1.task_stderr
        = st.task_stderr ++ se ++ tb) := by
  constructor
  · intro htb
    constructor <;> simp [DaskExecutor.run, htb]
  · intro htb
    constructor <;> simp [DaskExecutor.run, htb]

/-- Witness for C4 at a concrete input: the sinks after a successful run and
after a failed run. -/
theorem C4_witness :
    ((DaskExecutor.run (α := Nat) st0 cfg0 false md0 "key-1"
          (FutureOutcome.completed 7 "out text" "err text" "")).2.1.task_stdout
        = st0.task_stdout ++ "out text"
      ∧ (DaskExecutor.run (α := Nat) st0 cfg0 false md0 "key-1"
          (FutureOutcome.completed 7 "out text" "err text" "")).2.1.task_stderr
        = st0.task_stderr ++ "err text")
    ∧ ((DaskExecutor.run (α := Nat) st0 cfg0 false md0 "key-1"
          (FutureOutcome.completed 7 "o" "e" "tb text")).2.1.task_stderr
        = st0.task_stderr ++ "e" ++ "tb text") :=
  ⟨(C4_stream_replay st0 cfg0 md0 "key-1" 7 "out text" "err text" "").1 rfl,
   ((C4_stream_replay st0 cfg0 md0 "key-1" 7 "o" "e" "tb text").2
      (by decide)).2⟩

/-- Claim C5: post-processing the lattice `p` (`result, b = a(x=x)` then one
loop iteration `result, b = a(x=result)`, returning `(b, result)`) against
the given node-output map in the graph's topological order returns exactly
`(4, 2)`. -/
theorem C5_post_process_round_trip :
    postProcess_p testOrder testNodeOutputs 2
      = some (PyVal.pair (PyVal.int 4) (PyVal.int 2)) := by
  rfl

/-- Claim C6: `cancel` returns `True` for every task metadata and every job
handle. -/
theorem C6_cancel_always_true (st : ProcState) (md : TaskMetadata)
    (jh : String) : (DaskExecutor.cancel st md jh).1 = true :=
  rfl

/-- Claim C7: with `create_unique_workdir` set, the task is submitted with
working directory `workdir/dispatch_id/node_<node_id>`; without it, with the
shared configured `workdir` unchanged. -/
theorem C7_workdir_policy {α : Type} (st : ProcState) (cfg : Config)
    (md : TaskMetadata) (key : String) (outcome : FutureOutcome α) :
    (st.executor.create_unique_workdir = true →
      ∃ c, Event.submit c
          (osPathJoin (osPathJoin st.executor.workdir md.dispatch_id)
            ("node_" ++ toString md.node_id))
        ∈ (DaskExecutor.run st cfg false md key outcome).2.2)
    ∧ (st.executor.create_unique_workdir = false →
      ∃ c, Event.submit c st.executor.workdir
        ∈ (DaskExecutor.run st cfg false md key outcome).2.2) := by
  have hw := (resolveSchedulerAddress_fields st.executor cfg).1
  have hc := (resolveSchedulerAddress_fields st.executor cfg).2.1
  constructor
  · intro hcu
    refine ⟨(getOrCreateClient st.mapper st.nextClient
        (resolveSchedulerAddress st.executor cfg).scheduler_address).1, ?_⟩
    rw [run_trace]
    simp [currentWorkdir, hc, hcu, hw]
  · intro hcu
    refine ⟨(getOrCreateClient st.mapper st.nextClient
        (resolveSchedulerAddress st.executor cfg).scheduler_address).1, ?_⟩
    rw [run_trace]
    simp [currentWorkdir, hc, hcu, hw]

/-- Witness for C7 at a concrete input: an executor with
`create_unique_workdir` set submits into the per-dispatch-per-node
directory. -/
theorem C7_witness :
    st1.executor.create_unique_workdir = true
    ∧ ∃ c, Event.submit c
        (osPathJoin (osPathJoin st1.executor.workdir md0.dispatch_id)
          ("node_" ++ toString md0.node_id))
      ∈ (DaskExecutor.run (α := Nat) st1 cfg0 false md0 "key-1"
          (FutureOutcome.completed 7 "" "" "")).2.2 :=
  ⟨rfl, (C7_workdir_policy st1 cfg0 md0 "key-1"
      (FutureOutcome.completed 7 "" "" "")).1 rfl⟩

/-- Claim C3: the process-wide `_address_client_mapper` maps each address to
at most one client, and `run` and `cancel` preserve this: a call whose
address is already cached reuses the identical cached client (mapper and
fresh-client counter unchanged; the task is submitted on that client), a
call with a new address inserts exactly one new entry, no entry is removed
or replaced, cache well-formedness is preserved, and distinct addresses hold
distinct clients. -/
theorem C3_connection_cache {α : Type} (st : ProcState) (cfg : Config)
    (md : TaskMetadata) (key jh : String) (outcome : FutureOutcome α) :
    (∀ c, st.mapper.lookup
          (resolveSchedulerAddress st.executor cfg).scheduler_address = some c →
      (DaskExecutor.run st cfg false md key outcome).2.1.mapper = st.mapper
      ∧ (DaskExecutor.run st cfg false md key outcome).2.1.nextClient
          = st.nextClient
      ∧ Event.submit c
          (currentWorkdir (resolveSchedulerAddress st.executor cfg) md)
          ∈ (DaskExecutor.run st cfg false md key outcome).2.2)
    ∧ (st.mapper.lookup
          (resolveSchedulerAddress st.executor cfg).scheduler_address = none →
      (DaskExecutor.run st cfg false md key outcome).2.1.mapper
        = ((resolveSchedulerAddress st.executor cfg).scheduler_address,
            st.nextClient) :: st.mapper)
    ∧ (∀ a c, st.mapper.lookup a = some c →
      (DaskExecutor.run st cfg false md key outcome).2.1.mapper.lookup a
        = some c)
    ∧ (mapperWf st.mapper st.nextClient →
      mapperWf (DaskExecutor.run st cfg false md key outcome).2.1.mapper
        (DaskExecutor.run st cfg false md key outcome).2.1.nextClient)
    ∧ (∀ c, st.mapper.lookup st.executor.scheduler_address = some c →
      (DaskExecutor.cancel st md jh).2.1.mapper = st.mapper
      ∧ (DaskExecutor.cancel st md jh).2.1.nextClient = st.nextClient)
    ∧ (st.mapper.lookup st.executor.scheduler_address = none →
      (DaskExecutor.cancel st md jh).2.1.mapper
        = (st.executor.scheduler_address, st.nextClient) :: st.mapper)
    ∧ (∀ a c, st.mapper.lookup a = some c →
      (DaskExecutor.cancel st md jh).2.1.mapper.lookup a = some c)
    ∧ (mapperWf st.mapper st.nextClient →
      mapperWf (DaskExecutor.cancel st md jh).2.1.mapper
        (DaskExecutor.cancel st md jh).2.1.nextClient)
    ∧ (mapperWf st.mapper st.nextClient →
      ∀ a b ca cb, a ≠ b → st.mapper.lookup a = some ca →
        st.mapper.lookup b = some cb → ca ≠ cb) := by
  have hrm := run_mapper st cfg md key outcome
  have hrn := run_nextClient st cfg md key outcome
  refine ⟨?_, ?_, ?_, ?_, ?_, ?_, ?_, ?_, ?_⟩
  · intro c hc
    refine ⟨?_, ?_, ?_⟩
    · rw [hrm, getOrCreateClient_hit hc]
    · rw [hrn, getOrCreateClient_hit hc]
    · rw [run_trace, getOrCreateClient_hit hc]
      simp
  · intro hc
    rw [hrm, getOrCreateClient_miss hc]
  · intro a c hc
    rw [hrm]
    exact getOrCreateClient_preserves_lookup hc
  · intro hwf
    rw [hrm, hrn]
    exact getOrCreateClient_wf hwf
  · intro c hc
    constructor
    · rw [cancel_mapper, getOrCreateClient_hit hc]
    · rw [cancel_nextClient, getOrCreateClient_hit hc]
  · intro hc
    rw [cancel_mapper, getOrCreateClient_miss hc]
  · intro a c hc
    rw [cancel_mapper]
    exact getOrCreateClient_preserves_lookup hc
  · intro hwf
    rw [cancel_mapper, cancel_nextClient]
    exact getOrCreateClient_wf hwf
  · intro hwf a b ca cb hab ha hb
    exact lookup_inj hwf hab ha hb

/-- Witness for C3 at a concrete input: a first submission to a fresh
address inserts exactly one cache entry for it. -/
theorem C3_witness :
    (DaskExecutor.run (α := Nat) st0 cfg0 false md0 "key-1"
        (FutureOutcome.completed 7 "" "" "")).2.1.mapper
      = [("tcp://sched:8786", 0)] := by
  have h := (C3_connection_cache (α := Nat) st0 cfg0 md0 "key-1" "jh"
      (FutureOutcome.completed 7 "" "" "")).2.1 (by decide)
  exact h

/-- Counterexample for C8 as stated: the persisted configuration holds a
value for `executors.dask.cache_dir` and the constructor argument is empty,
yet the resolved `cache_dir` is the hardcoded plugin default, not the
configured value — the constructor never consults the configuration for
`cache_dir`. -/
theorem C8_counterexample :
    c8_cfg.executors_dask_cache_dir = some "/cfg/cachedir"
    ∧ c8_args.cache_dir = ""
    ∧ (DaskExecutor.init c8_args c8_cfg c8_env).cache_dir
        = default_cache_dir c8_env
    ∧ (DaskExecutor.init c8_args c8_cfg c8_env).cache_dir ≠ "/cfg/cachedir" := by
  refine ⟨rfl, rfl, rfl, ?_⟩
  decide

/-- Claim C8 (amended): `workdir` and `create_unique_workdir` follow the
three-tier fallback explicit argument → persisted configuration → hardcoded
default, while `cache_dir` follows a two-tier fallback explicit argument →
hardcoded default and never consults the persisted configuration. -/
theorem C8_fallback_tiers (a : InitArgs) (cfg : Config) (e : Env) :
    (a.cache_dir ≠ "" → (DaskExecutor.init a cfg e).cache_dir = a.cache_dir)
    ∧ (a.cache_dir = "" →
        (DaskExecutor.init a cfg e).cache_dir = default_cache_dir e)
    ∧ (a.workdir ≠ "" → (DaskExecutor.init a cfg e).workdir = a.workdir)
    ∧ (∀ w, a.workdir = "" → cfg.executors_dask_workdir = some w →
        (DaskExecutor.init a cfg e).workdir = w)
    ∧ (a.workdir = "" → cfg.executors_dask_workdir = none →
        (DaskExecutor.init a cfg e).workdir = default_workdir e)
    ∧ (∀ b, a.create_unique_workdir = some b →
        (DaskExecutor.init a cfg e).create_unique_workdir = b)
    ∧ (∀ b, a.create_unique_workdir = none →
        cfg.executors_dask_create_unique_workdir = some b →
        (DaskExecutor.init a cfg e).create_unique_workdir = b)
    ∧ (a.create_unique_workdir = none →
        cfg.executors_dask_create_unique_workdir = none →
        (DaskExecutor.init a cfg e).create_unique_workdir
          = default_create_unique_workdir) := by
  refine ⟨?_, ?_, ?_, ?_, ?_, ?_, ?_, ?_⟩
  · intro h
    simp [DaskExecutor.init, h]
  · intro h
    simp [DaskExecutor.init, h]
  · intro h
    simp [DaskExecutor.init, h]
  · intro w h1 h2
    simp [DaskExecutor.init, h1, h2]
  · intro h1 h2
    simp [DaskExecutor.init, h1, h2]
  · intro b h
    simp [DaskExecutor.init, h]
  · intro b h1 h2
    simp [DaskExecutor.init, h1, h2]
  · intro h1 h2
    simp [DaskExecutor.init, h1, h2]

/-- Witness for the amended C8 at concrete inputs: an explicit `cache_dir`
argument wins; with empty arguments `workdir` comes from the configuration
and so does `create_unique_workdir`; with an empty configuration `workdir`
falls back to the plugin default. -/
theorem C8_witness :
    (DaskExecutor.init c8_args2 c8_cfg2 c8_env).cache_dir = "/my/cache"
    ∧ (DaskExecutor.init c8_args2 c8_cfg2 c8_env).workdir = "/cfg/wd"
    ∧ (DaskExecutor.init c8_args2 c8_cfg2 c8_env).create_unique_workdir = true
    ∧ (DaskExecutor.init c8_args c8_cfg c8_env).workdir
        = default_workdir c8_env :=
  ⟨(C8_fallback_tiers c8_args2 c8_cfg2 c8_env).1 (by decide),
   (C8_fallback_tiers c8_args2 c8_cfg2 c8_env).2.2.2.1 "/cfg/wd" rfl rfl,
   (C8_fallback_tiers c8_args2 c8_cfg2 c8_env).2.2.2.2.2.2.1 true rfl rfl,
   (C8_fallback_tiers c8_args c8_cfg c8_env).2.2.2.2.1 rfl rfl⟩

/-- Claim C9: on every submission path (cancellation flag unset) the trace
ends with the submission immediately followed by the job-handle registration
and only then the await of the future, the post-state holds the recorded
handle, and a run aborted before submission never awaits. -/
theorem C9_job_handle_before_await {α : Type} (st : ProcState) (cfg : Config)
    (md : TaskMetadata) (key : String) (outcome : FutureOutcome α) :
    ((DaskExecutor.run st cfg false md key outcome).2.2
      = (Event.checkCancelRequested ::
          (getOrCreateClient st.mapper st.nextClient
            (resolveSchedulerAddress st.executor cfg).scheduler_address).2.2.2)
        ++ [Event.submit
              (getOrCreateClient st.mapper st.nextClient
                (resolveSchedulerAddress st.executor cfg).scheduler_address).1
              (currentWorkdir (resolveSchedulerAddress st.executor cfg) md),
            Event.setJobHandle key, Event.awaitFuture])
    ∧ (DaskExecutor.run st cfg false md key outcome).2.1.job_handle = some key
    ∧ Event.awaitFuture ∉ (DaskExecutor.run st cfg true md key outcome).2.2 := by
  refine ⟨?_, ?_, ?_⟩
  · rw [run_trace]
    simp
  · cases outcome with
    | cancelled => simp [DaskExecutor.run]
    | completed r so se tb =>
      by_cases htb : tb = "" <;> simp [DaskExecutor.run, htb]
  · simp [DaskExecutor.run]

/-- Witness for C9 at a concrete input: after a concrete submission the
recorded job handle is the future's key. -/
theorem C9_witness :
    (DaskExecutor.run (α := Nat) st0 cfg0 false md0 "key-9"
        (FutureOutcome.completed 7 "" "" "")).2.1.job_handle = some "key-9" :=
  (C9_job_handle_before_await st0 cfg0 md0 "key-9"
      (FutureOutcome.completed 7 "" "" "")).2.1

/-- Claim C10: a run starting from an empty `scheduler_address` with a
configured `dask.scheduler_address` overwrites the attribute with the
configured value as its first action, the mutation persists in the
post-state and the client cache is keyed by the resolved address; `cancel`
leaves the executor attributes untouched, and a non-empty address supplied
to the constructor is never overwritten by `run`. -/
theorem C10_scheduler_address_resolution {α : Type} (st : ProcState)
    (cfg : Config) (cancelRequested : Bool) (md : TaskMetadata)
    (key jh : String) (outcome : FutureOutcome α) :
    (∀ addr, st.executor.scheduler_address = "" →
      cfg.dask_scheduler_address = some addr →
      (resolveSchedulerAddress st.executor cfg).scheduler_address = addr
      ∧ (DaskExecutor.run st cfg cancelRequested md key
          outcome).2.1.executor.scheduler_address = addr)
    ∧ (st.executor.scheduler_address ≠ "" →
      (DaskExecutor.run st cfg cancelRequested md key
          outcome).2.1.executor.scheduler_address
        = st.executor.scheduler_address)
    ∧ (DaskExecutor.cancel st md jh).2.1.executor = st.executor
    ∧ (cancelRequested = false →
      (DaskExecutor.run st cfg cancelRequested md key outcome).2.1.mapper
        = (getOrCreateClient st.mapper st.nextClient
            (resolveSchedulerAddress st.executor cfg).scheduler_address).2.1) := by
  refine ⟨?_, ?_, rfl, ?_⟩
  · intro addr hx hc
    constructor
    · rw [resolveSchedulerAddress_empty hx hc]
    · rw [run_executor, resolveSchedulerAddress_empty hx hc]
  · intro hx
    rw [run_executor, resolveSchedulerAddress_nonempty hx]
  · intro h
    subst h
    exact run_mapper st cfg md key outcome

/-- Witness for C10 at a concrete input: an executor constructed with an
empty address picks up the configured scheduler address during `run`, and a
non-empty address survives `run` unchanged. -/
theorem C10_witness :
    ((DaskExecutor.run (α := Nat) stE cfg0 false md0 "key-1"
        (FutureOutcome.completed 7 "" "" "")).2.1.executor.scheduler_address
      = "tcp://sched:8786")
    ∧ ((DaskExecutor.run (α := Nat) st0 cfg0 false md0 "key-1"
        (FutureOutcome.completed 7 "" "" "")).2.1.executor.scheduler_address
      = st0.executor.scheduler_address) :=
  ⟨((C10_scheduler_address_resolution stE cfg0 false md0 "key-1" "jh"
      (FutureOutcome.completed 7 "" "" "")).1 "tcp://sched:8786" rfl rfl).2,
   (C10_scheduler_address_resolution st0 cfg0 false md0 "key-1" "jh"
      (FutureOutcome.completed 7 "" "" "")).2.1 (by decide)⟩

end Covalent
